import Mathlib

/-!
Verification of merge_mesh, `volume_object.cpp`.

A shallow embedding of `VolumeObject` (mesh ingestion, level-set construction,
grid and mesh serialisation) together with the properties of its
natural-language specification.

Conventions of the embedding:

* `std::string` is a list of characters, one `Char` per C++ `char`;
* `size_t` arithmetic is arithmetic modulo `2 ^ 64`, 32-bit index arithmetic
  (`openvdb::Index32`) is arithmetic modulo `2 ^ 32`;
* the external libraries (OpenMesh reader, OpenVDB level-set builder and
  surface extractor, stream formatting of floats) are fields of `Env`;
* a member function is a function from the program state to an `Outcome`:
  normal return, `exit(code)`, an uncaught C++ exception, or undefined
  behaviour.
-/

set_option autoImplicit false
set_option linter.dupNamespace false

namespace MergeMesh

/-! ## Strings, machine integers, outcomes -/

/-- A C++ `std::string`: a sequence of `char`. -/
abbrev CppString := List Char

/-- Modulus of `size_t` arithmetic. -/
def SIZE_T_MOD : Nat := 2 ^ 64

/-- Modulus of `openvdb::Index32` arithmetic. -/
def INDEX32_MOD : Nat := 2 ^ 32

/-- Subtraction of two `size_t` values, that is `(a - b) mod 2 ^ 64`: the
difference when it is not negative, the difference plus `2 ^ 64` when it
wraps around below zero. -/
def size_sub (a b : Nat) : Nat :=
  if b % SIZE_T_MOD ≤ a % SIZE_T_MOD then a % SIZE_T_MOD - b % SIZE_T_MOD
  else a % SIZE_T_MOD + SIZE_T_MOD - b % SIZE_T_MOD

/-- The C++ exceptions that the modelled library calls can throw. -/
inductive CppException where
  | out_of_range
  | io_error
  deriving DecidableEq, Repr

/-- The call `s.substr(pos, n)`: throws `std::out_of_range` when `pos > s.size()`,
otherwise yields the characters `[pos, pos + min(n, size - pos))`. -/
def substr (s : CppString) (pos n : Nat) : Except CppException CppString :=
  if s.length < pos then .error .out_of_range else .ok ((s.drop pos).take n)

/-- How a call ends: it returns normally with a new state, the process leaves
through `exit(code)` in some state, an exception escapes, or the behaviour is
undefined. -/
inductive Outcome (σ : Type) where
  | ok (s : σ)
  | exit (code : Int) (s : σ)
  | threw (e : CppException)
  | undefined
  deriving DecidableEq

/-- The state in which the call returned normally, if it did. -/
def Outcome.returned {σ : Type} : Outcome σ → Option σ
  | .ok s => some s
  | _ => none

/-- The state in which the process left through `exit`, if it did. -/
def Outcome.exited {σ : Type} : Outcome σ → Option σ
  | .exit _ s => some s
  | _ => none

/-! ## Vectors, meshes, grids -/

/-- A 3-vector (`OpenMesh` point, `openvdb::Vec3s`, `openvdb::Vec3I`). -/
structure Vec3 (α : Type) where
  x : α
  y : α
  z : α
  deriving DecidableEq, Repr

/-- Component access `v(i)` / `v[i]` for `i` in `0..2`. -/
def Vec3.get {α : Type} (v : Vec3 α) (i : Nat) : α :=
  if i = 0 then v.x else if i = 1 then v.y else v.z

/-- Component assignment `v(i) = a` for `i` in `0..2`. -/
def Vec3.set {α : Type} (v : Vec3 α) (i : Nat) (a : α) : Vec3 α :=
  if i = 0 then { v with x := a } else if i = 1 then { v with y := a } else { v with z := a }

/-- Three 32-bit vertex indices (`openvdb::Vec3I`). -/
abbrev Vec3I := Vec3 Nat

/-- Four 32-bit vertex indices (`openvdb::Vec4I`). -/
structure Vec4I where
  a0 : Nat
  a1 : Nat
  a2 : Nat
  a3 : Nat
  deriving DecidableEq, Repr

/-- Component access `f(i)` for `i` in `0..3`. -/
def Vec4I.get (f : Vec4I) (i : Nat) : Nat :=
  if i = 0 then f.a0 else if i = 1 then f.a1 else if i = 2 then f.a2 else f.a3

/-- The mesh held by the object. Its C++ type is declared in `volume_object.h`;
here a face is the sequence of vertex-handle indices that its face-vertex
iteration yields. The type admits a sequence of any length; an OpenMesh mesh
holds no face of fewer than three vertices, which the theorems that depend on
it assume explicitly. -/
structure TriMesh (R : Type) where
  vertices : List (Vec3 R)
  faces : List (List Nat)
  deriving DecidableEq

/-- The arithmetic of the mesh scalar type used by the bounding-box code. -/
structure RealOps (R : Type) where
  min : R → R → R
  max : R → R → R
  add : R → R → R
  sub : R → R → R
  div : R → R → R
  ofRat : ℚ → R

/-- An `openvdb::math::Transform` created by `createLinearTransform`. -/
structure Transform where
  voxelSize : ℚ
  deriving DecidableEq

/-- The class tag of a grid. -/
inductive GridClass where
  | GRID_UNKNOWN
  | GRID_LEVEL_SET
  | GRID_FOG_VOLUME
  | GRID_STAGGERED
  deriving DecidableEq, Repr

/-- An `openvdb::FloatGrid`: metadata plus the voxel storage `V`. -/
structure Grid (V : Type) where
  background : ℚ
  transform : Transform
  gridClass : GridClass
  name : CppString
  tree : V
  deriving DecidableEq

/-- The three output vectors filled by `openvdb::tools::volumeToMesh`. -/
structure Extraction (F : Type) where
  output_points : List (Vec3 F)
  output_tris : List Vec3I
  output_quad : List Vec4I
  deriving DecidableEq

/-! ## The world outside the object -/

/-- The NUL character, which ends a C string. -/
def NUL : Char := Char.ofNat 0

/-- The C string `s.c_str()` as the C library reads it when a stream is
opened on `s`: the characters before the first NUL. -/
def c_str (s : CppString) : CppString := s.takeWhile (fun c => c != NUL)

/-- Files and standard streams. `files` maps a file to its content; `links`
lists the path names that denote the file of another name (links of the file
system); `unwritable` lists the files that cannot be opened for writing. -/
structure World where
  files : List (CppString × List Char)
  links : List (CppString × CppString)
  unwritable : List CppString
  stdout : List Char
  stderr : List Char
  deriving DecidableEq

/-- Text sent to `std::cerr`. -/
def World.cerr (w : World) (s : List Char) : World :=
  { w with stderr := w.stderr ++ s }

/-- Text sent to `std::cout`. -/
def World.cout (w : World) (s : List Char) : World :=
  { w with stdout := w.stdout ++ s }

/-- The file that a stream opened on `path` reaches: the C string of the path,
followed through the links. -/
def World.fileOf (w : World) (path : CppString) : CppString :=
  match w.links.lookup (c_str path) with
  | some target => target
  | none => c_str path

/-- Whether a stream on `path` opens for writing: not on the empty C string,
and not on a file that is unwritable. -/
def World.canWrite (w : World) (path : CppString) : Bool :=
  !(c_str path).isEmpty && !(w.unwritable.contains (w.fileOf path))

/-- The content of the file that `path` denotes, if there is one. -/
def World.readFile (w : World) (path : CppString) : Option (List Char) :=
  (w.files.find? (fun e => e.1 == w.fileOf path)).map (fun e => e.2)

/-- The file that `path` denotes is created or truncated and receives `content`. -/
def World.writeFile (w : World) (path : CppString) (content : List Char) : World :=
  { w with
    files := (w.fileOf path, content) :: w.files.filter (fun e => !(e.1 == w.fileOf path)) }

/-- The external collaborators and build constants of the program. -/
structure Env (R F V : Type) where
  /-- arithmetic of the mesh scalar -/
  ops : RealOps R
  /-- the reader `OpenMesh::IO::read_mesh`: `none` when it returns false -/
  read_mesh_file : CppString → Option (TriMesh R)
  /-- conversion of a mesh coordinate to the `float` of `openvdb::Vec3s` -/
  toFloat : R → F
  /-- the indeterminate initial content of the local `fv_index` -/
  fv_index_init : Vec3I
  /-- the voxel storage of a freshly created grid -/
  emptyTree : V
  /-- the constant `openvdb::LEVEL_SET_HALF_WIDTH` -/
  LEVEL_SET_HALF_WIDTH : ℚ
  /-- the builder `openvdb::tools::meshToLevelSet` -/
  meshToLevelSet : Transform → List (Vec3 F) → List Vec3I → ℚ → Grid V
  /-- the extractor `openvdb::tools::volumeToMesh` -/
  volumeToMesh : Grid V → ℚ → Extraction F
  /-- stream output `os << x` of a `float` -/
  fmt : F → List Char
  /-- result of `openvdb::io::File::hasBloscCompression` -/
  hasBloscCompression : Bool
  /-- the constant `openvdb::io::File::DEFAULT_COMPRESSION_FLAGS` -/
  DEFAULT_COMPRESSION_FLAGS : Nat
  /-- the bytes `openvdb::io::File::write` produces for a grid under given compression flags -/
  vdb_encode : Nat → Grid V → List Char

/-! ## The object -/

/-- The data members of `VolumeObject`. -/
structure VolumeObject (R F V : Type) where
  mesh_name : CppString
  mesh : TriMesh R
  points : List (Vec3 F)
  triangles : List Vec3I
  grid : Option (Grid V)
  deriving DecidableEq

/-- Program state: the object and the world around it. -/
structure State (R F V : Type) where
  self : VolumeObject R F V
  world : World
  deriving DecidableEq

/-- Stream output of an unsigned integer: its decimal digits. -/
def dec (n : Nat) : List Char := Nat.toDigits 10 n

/-- The line terminator written by `std::endl`. -/
def endl : List Char := [ '\n']

namespace VolumeObject

variable {R F V : Type}

/-- Modelled from the spec: the class declaration (`volume_object.h`) is not
among the sources; as the spec says, the members of a freshly constructed
object are empty: empty name, empty mesh, empty vectors, null grid pointer. -/
def fresh : VolumeObject R F V :=
  { mesh_name := [], mesh := ⟨[], []⟩, points := [], triangles := [], grid := none }

/-- Lines 73-87 of `read_mesh`: bounding box of the vertices, its centre and the
reciprocal of its largest extent. The result is used by no later statement. -/
def normalization (ops : RealOps R) (v0 : Vec3 R) (vs : List (Vec3 R)) : Vec3 R × R :=
  let bb := vs.foldl
    (fun (bb : Vec3 R × Vec3 R) p =>
      (Vec3.mk (ops.min bb.1.x p.x) (ops.min bb.1.y p.y) (ops.min bb.1.z p.z),
       Vec3.mk (ops.max bb.2.x p.x) (ops.max bb.2.y p.y) (ops.max bb.2.z p.z)))
    (v0, v0)
  let bb_min := bb.1
  let bb_max := bb.2
  let two := ops.ofRat 2
  let bb_center : Vec3 R :=
    Vec3.mk (ops.div (ops.add bb_max.x bb_min.x) two) (ops.div (ops.add bb_max.y bb_min.y) two)
      (ops.div (ops.add bb_max.z bb_min.z) two)
  let bb_max : Vec3 R :=
    Vec3.mk (ops.sub bb_max.x bb_min.x) (ops.sub bb_max.y bb_min.y) (ops.sub bb_max.z bb_min.z)
  let scalar_max := ops.max (bb_max.get 0) (bb_max.get 1)
  let scalar_max := ops.max scalar_max (bb_max.get 2)
  let scalar_max := ops.div (ops.ofRat 1) scalar_max
  (bb_center, scalar_max)

/-- Lines 89-98: one `Vec3s` per mesh vertex, appended to `points`. -/
def fill_points (toFloat : R → F) (vs : List (Vec3 R)) (points : List (Vec3 F)) : List (Vec3 F) :=
  points ++ vs.map (fun p => ((Vec3.mk (toFloat (p.get 0)) (toFloat (p.get 1)) (toFloat (p.get 2))) : Vec3 F))

/-- Lines 108-116: the face-vertex loop of one face, started with `counter`
and the current content of `fv_index`. `none` is the `exit(-1)` branch. -/
def fill_face : List Nat → Nat → Vec3I → Option Vec3I
  | [], _, fv_index => some fv_index
  | idx :: rest, counter, fv_index =>
      if counter ≥ 3 then none
      else fill_face rest (counter + 1) (fv_index.set counter (idx % INDEX32_MOD))

/-- Lines 105-118: the face loop. `Except.error` carries the content of
`triangles` at the moment of `exit(-1)`, `Except.ok` its content after the loop. -/
def fill_triangles : List (List Nat) → Vec3I → List Vec3I → Except (List Vec3I) (List Vec3I)
  | [], _, triangles => .ok triangles
  | f :: fs, fv_index, triangles =>
      match fill_face f 0 fv_index with
      | none => .error triangles
      | some fv => fill_triangles fs fv (triangles ++ [fv])

/-- The message of line 68. -/
def read_error_message (mesh_name : CppString) : List Char :=
  "read mesh ".toList ++ mesh_name ++ " error!\n".toList

/-- The message of line 112. -/
def not_triangle_message : List Char := "more that 3 points, not triangle mesh \n".toList

/-- The member function `VolumeObject::read_mesh`. -/
def read_mesh (env : Env R F V) (st : State R F V) : Outcome (State R F V) :=
  match env.read_mesh_file st.self.mesh_name with
  | none => .exit (-1) { st with world := st.world.cerr (read_error_message st.self.mesh_name) }
  | some mesh =>
    match mesh.vertices with
    | [] => .undefined
    | v0 :: _ =>
      let _unused := normalization env.ops v0 mesh.vertices
      let points := fill_points env.toFloat mesh.vertices st.self.points
      match fill_triangles mesh.faces env.fv_index_init st.self.triangles with
      | .error triangles =>
          .exit (-1)
            { self := { st.self with mesh := mesh, points := points, triangles := triangles },
              world := st.world.cerr not_triangle_message }
      | .ok triangles =>
          .ok { st with self := { st.self with mesh := mesh, points := points, triangles := triangles } }

/-- The call `openvdb::FloatGrid::create(background)`. -/
def FloatGrid_create (env : Env R F V) (background : ℚ) : Grid V :=
  { background := background, transform := ⟨1⟩, gridClass := .GRID_UNKNOWN, name := [],
    tree := env.emptyTree }

/-- The member function `VolumeObject::initial_volume`. -/
def initial_volume (env : Env R F V) (st : State R F V) : Outcome (State R F V) :=
  match read_mesh env st with
  | .ok st1 =>
      let grid := FloatGrid_create env 10
      let grid_transform : Transform := ⟨8 / 1000⟩
      let grid := { grid with transform := grid_transform }
      let grid := { grid with gridClass := GridClass.GRID_LEVEL_SET }
      let grid := { grid with name := "mesh_grid".toList }
      let grid := env.meshToLevelSet grid.transform st1.self.points st1.self.triangles
        env.LEVEL_SET_HALF_WIDTH
      .ok { st1 with self := { st1.self with grid := some grid } }
  | other => other

/-- The message of line 27. -/
def no_name_message : List Char := "mesh_name without initialization \n".toList

/-- The default constructor `VolumeObject::VolumeObject()`. -/
def VolumeObject (env : Env R F V) (w : World) : Outcome (State R F V) :=
  let st : State R F V := { self := fresh, world := w }
  if st.self.mesh_name.isEmpty then
    .exit (-1) { st with world := st.world.cerr no_name_message }
  else initial_volume env st

/-- The constructor `VolumeObject::VolumeObject(std::string name)`. -/
def VolumeObject_string (env : Env R F V) (name : CppString) (w : World) :
    Outcome (State R F V) :=
  let st : State R F V := { self := fresh, world := w }
  let st := { st with self := { st.self with mesh_name := name } }
  initial_volume env st

/-- Lines 126-129 of `write_grid`: the name handed to `openvdb::io::File`. -/
def write_grid_name (name : CppString) : Except CppException CppString :=
  match substr name (size_sub name.length 4) 4 with
  | .error e => .error e
  | .ok ext => if ext ≠ ".vdb".toList then .ok (name ++ ".vdb".toList) else .ok name

/-- The compression flags `COMPRESS_ZIP | COMPRESS_ACTIVE_MASK`. -/
def COMPRESS_ZIP_ACTIVE_MASK : Nat := 3

/-- The member function `VolumeObject::write_grid`. -/
def write_grid (env : Env R F V) (name : CppString) (st : State R F V) :
    Outcome (State R F V) :=
  match write_grid_name name with
  | .error e => .threw e
  | .ok name =>
    let w := if env.hasBloscCompression then
        st.world.cout "my openvdb has blosc compression support\n".toList
      else st.world
    let w := w.cout ("default compression flags ".toList ++ dec env.DEFAULT_COMPRESSION_FLAGS ++ endl)
    match st.self.grid with
    | none => .undefined
    | some grid =>
      if w.canWrite name then
        .ok { st with world := w.writeFile name (env.vdb_encode COMPRESS_ZIP_ACTIVE_MASK grid) }
      else .threw .io_error

/-- Line 200 of `save_as_mesh`: the name of the output mesh file. -/
def output_name (mesh_name : CppString) : Except CppException CppString :=
  match substr mesh_name 0 (size_sub mesh_name.length 4) with
  | .error e => .error e
  | .ok stem => .ok (stem ++ "_merge.obj".toList)

/-- Line 204: the comment header. -/
def header (r : Extraction F) : List Char :=
  "#output from volume grid\n#author: Bo Wu\n#vertices: ".toList ++ dec r.output_points.length
    ++ "\n#quad: ".toList ++ dec r.output_quad.length
    ++ "\n#tris: ".toList ++ dec r.output_tris.length ++ endl

/-- Lines 207-212: the text written for one output point. -/
def vertex_line (fmt : F → List Char) (p : Vec3 F) : List Char :=
  "v ".toList ++ ([0, 1, 2].map (fun i => fmt (p.get i) ++ " ".toList)).flatten ++ endl

/-- Lines 217-222: the text written for one output quad. -/
def face_line (f : Vec4I) : List Char :=
  "f ".toList ++ ([3, 2, 1, 0].map (fun i => dec ((f.get i + 1) % INDEX32_MOD) ++ " ".toList)).flatten
    ++ endl

/-- Lines 204-223: everything written to the stream once it is open. -/
def mesh_text (fmt : F → List Char) (r : Extraction F) : List Char :=
  header r ++ (r.output_points.map (vertex_line fmt)).flatten ++ endl
    ++ (r.output_quad.map face_line).flatten

/-- The member function `VolumeObject::save_as_mesh`. -/
def save_as_mesh (env : Env R F V) (st : State R F V) : Outcome (State R F V) :=
  match st.self.grid with
  | none => .undefined
  | some grid =>
    let r := env.volumeToMesh grid 0
    match output_name st.self.mesh_name with
    | .error e => .threw e
    | .ok output_name =>
      if st.world.canWrite output_name then
        .ok { st with world := st.world.writeFile output_name (mesh_text env.fmt r) }
      else .ok st

end VolumeObject

/-- The 32-bit index triple stored for a triangular face. -/
def face_triple (f : List Nat) : Vec3I := ⟨f.getD 0 0, f.getD 1 0, f.getD 2 0⟩

/-! ## Reading the files back: lines and words -/

/-- The lines of a text: the pieces between line feeds. -/
def lines (text : List Char) : List (List Char) := text.splitOn '\n'

/-- The words of a line: its non-empty pieces between blanks. -/
def words (line : List Char) : List (List Char) :=
  (line.splitOn ' ').filter (fun w => !w.isEmpty)

/-- A line is a vertex line when it starts with `v`. -/
def isVertexLine (line : List Char) : Bool := line.head? == some 'v'

/-- A line is a face line when it starts with `f`. -/
def isFaceLine (line : List Char) : Bool := line.head? == some 'f'

/-- The text of a vertex line without its terminator. -/
def vertex_body {F : Type} (fmt : F → List Char) (p : Vec3 F) : List Char :=
  "v ".toList ++ (fmt p.x ++ " ".toList ++ (fmt p.y ++ " ".toList ++ (fmt p.z ++ " ".toList)))

/-- The text of a face line without its terminator. -/
def face_body (f : Vec4I) : List Char :=
  "f ".toList ++ (dec ((f.a3 + 1) % INDEX32_MOD) ++ " ".toList
    ++ (dec ((f.a2 + 1) % INDEX32_MOD) ++ " ".toList
    ++ (dec ((f.a1 + 1) % INDEX32_MOD) ++ " ".toList
    ++ (dec ((f.a0 + 1) % INDEX32_MOD) ++ " ".toList))))

/-- The five comment lines of the header, without terminators. -/
def header_lines {F : Type} (r : Extraction F) : List (List Char) :=
  [ "#output from volume grid".toList, "#author: Bo Wu".toList,
    "#vertices: ".toList ++ dec r.output_points.length,
    "#quad: ".toList ++ dec r.output_quad.length,
    "#tris: ".toList ++ dec r.output_tris.length ]

/-! ## A concrete environment for evaluation -/

/-- Integer scalars. -/
def intOps : RealOps Int :=
  { min := fun a b => min a b, max := fun a b => max a b, add := fun a b => a + b,
    sub := fun a b => a - b, div := fun a b => a / b, ofRat := fun q => q.floor }

/-- Decimal output of an integer. -/
def fmtInt (i : Int) : List Char :=
  if i < 0 then '-' :: dec i.natAbs else dec i.natAbs

/-- A mesh of one triangle followed by a face of two vertices. -/
def twoFaceMesh : TriMesh Int :=
  { vertices := [⟨0, 0, 0⟩, ⟨1, 0, 0⟩, ⟨0, 1, 0⟩], faces := [[0, 1, 2], [0, 1]] }

/-- A mesh of one triangle followed by a quadrilateral. -/
def quadFaceMesh : TriMesh Int :=
  { vertices := [⟨0, 0, 0⟩, ⟨1, 0, 0⟩, ⟨0, 1, 0⟩, ⟨1, 1, 0⟩], faces := [[0, 1, 2], [0, 1, 3, 2]] }

/-- A mesh of two triangles. -/
def twoTriangleMesh : TriMesh Int :=
  { vertices := [⟨0, 0, 0⟩, ⟨1, 0, 0⟩, ⟨0, 1, 0⟩, ⟨1, 1, 0⟩], faces := [[0, 1, 2], [2, 1, 3]] }

/-- A sample extraction result: four points, one triangle, two quads. -/
def sampleExtraction : Extraction Int :=
  { output_points := [⟨0, 0, 0⟩, ⟨1, 0, 0⟩, ⟨0, 1, 0⟩, ⟨1, 1, -5⟩],
    output_tris := [⟨0, 1, 2⟩],
    output_quad := [⟨0, 1, 2, 3⟩, ⟨3, 2, 1, 0⟩] }

/-- A sample grid over trivial voxel storage. -/
def sampleGrid : Grid Unit :=
  { background := 3, transform := ⟨8 / 1000⟩, gridClass := .GRID_LEVEL_SET, name := [], tree := () }

/-- An environment over integer coordinates: three mesh files exist, every
grid is `sampleGrid` and every extraction is `sampleExtraction`. -/
def sampleEnv : Env Int Int Unit :=
  { ops := intOps,
    read_mesh_file := fun n =>
      if n = "two.obj".toList then some twoFaceMesh
      else if n = "quad.obj".toList then some quadFaceMesh
      else if n = "tri.obj".toList then some twoTriangleMesh
      else none,
    toFloat := id,
    fv_index_init := ⟨7, 7, 7⟩,
    emptyTree := (),
    LEVEL_SET_HALF_WIDTH := 3,
    meshToLevelSet := fun _ _ _ _ => sampleGrid,
    volumeToMesh := fun _ _ => sampleExtraction,
    fmt := fmtInt,
    hasBloscCompression := false,
    DEFAULT_COMPRESSION_FLAGS := 0,
    vdb_encode := fun _ _ => [] }

/-- A world without files in which every path is writable. -/
def emptyWorld : World :=
  { files := [], links := [], unwritable := [], stdout := [], stderr := [] }

/-- A world in which the output mesh of `tri.obj` cannot be opened. -/
def lockedWorld : World :=
  { files := [], links := [], unwritable := [ "tri_merge.obj".toList], stdout := [],
    stderr := [] }

/-- A world in which the mesh files `tri.obj` and `mesh` exist. -/
def meshWorld : World :=
  { files := [( "tri.obj".toList, "# input tri".toList), ( "mesh".toList, "# input mesh".toList)],
    links := [], unwritable := [], stdout := [], stderr := [] }

/-- A mesh name with an embedded NUL: `mesh`, NUL, `.obj`. -/
def nulName : CppString := "mesh".toList ++ NUL :: ".obj".toList

/-- The sample environment with a reader that delivers `twoTriangleMesh` for `nulName`. -/
def nulEnv : Env Int Int Unit :=
  { sampleEnv with
    read_mesh_file := fun n => if n = nulName then some twoTriangleMesh else none }

/-- An object built from `tri.obj`, about to be saved. -/
def sampleObject : VolumeObject Int Int Unit :=
  { mesh_name := "tri.obj".toList, mesh := twoTriangleMesh,
    points := twoTriangleMesh.vertices, triangles := [⟨0, 1, 2⟩, ⟨2, 1, 3⟩],
    grid := some sampleGrid }

/-! ## General facts about the embedding -/

section Basics

variable {R F V : Type}

theorem size_sub_four_of_lt {n : Nat} (h : n < 4) : size_sub n 4 = n + SIZE_T_MOD - 4 := by
  unfold size_sub SIZE_T_MOD
  split <;> omega

/-- The model of `size_t` subtraction is subtraction modulo `2 ^ 64`. -/
theorem size_sub_eq_mod (a b : Nat) :
    size_sub a b = (a % SIZE_T_MOD + SIZE_T_MOD - b % SIZE_T_MOD) % SIZE_T_MOD := by
  unfold size_sub SIZE_T_MOD
  split <;> omega

theorem size_sub_four_of_le {n : Nat} (h : 4 ≤ n) (hn : n < SIZE_T_MOD) :
    size_sub n 4 = n - 4 := by
  unfold size_sub SIZE_T_MOD at *
  split <;> omega

/-- Names of fewer than four characters: `substr` throws in `write_grid`. -/
theorem write_grid_name_short (name : CppString) (h : name.length < 4) :
    VolumeObject.write_grid_name name = .error .out_of_range := by
  unfold VolumeObject.write_grid_name substr
  have : name.length < name.length + SIZE_T_MOD - 4 := by
    unfold SIZE_T_MOD
    omega
  rewrite [size_sub_four_of_lt h, if_pos this]
  rfl

/-- Names of at least four characters: the extension is appended when missing. -/
theorem write_grid_name_long (name : CppString) (h : 4 ≤ name.length)
    (hn : name.length < SIZE_T_MOD) :
    VolumeObject.write_grid_name name =
      .ok (if name.drop (name.length - 4) = ".vdb".toList then name else name ++ ".vdb".toList) := by
  unfold VolumeObject.write_grid_name substr
  rewrite [size_sub_four_of_le h hn]
  have h1 : ¬ name.length < name.length - 4 := by omega
  have h2 : (name.drop (name.length - 4)).take 4 = name.drop (name.length - 4) := by
    apply List.take_of_length_le
    simp
    omega
  simp only [h1, if_false, h2]
  by_cases hext : name.drop (name.length - 4) = ".vdb".toList
  · rw [if_neg (not_not.mpr hext), if_pos hext]
  · rw [if_pos hext, if_neg hext]

/-- The output mesh name: the mesh name without its last four characters (all of
it when it is shorter) followed by `_merge.obj`; `substr(0, n)` never throws. -/
theorem output_name_eq (name : CppString) (hn : name.length < SIZE_T_MOD) :
    VolumeObject.output_name name =
      .ok ((if 4 ≤ name.length then name.take (name.length - 4) else name)
        ++ "_merge.obj".toList) := by
  unfold VolumeObject.output_name substr
  by_cases h : 4 ≤ name.length
  · rewrite [size_sub_four_of_le h hn]
    simp [h]
  · have h4 : name.length < 4 := by omega
    rewrite [size_sub_four_of_lt h4]
    have : name.take (name.length + SIZE_T_MOD - 4) = name := by
      apply List.take_of_length_le
      unfold SIZE_T_MOD
      omega
    simp [h, this]

theorem output_name_ne (name path : CppString) (hn : name.length < SIZE_T_MOD)
    (hp : VolumeObject.output_name name = .ok path) : path ≠ name := by
  rw [output_name_eq name hn] at hp
  injection hp with hp
  intro heq
  have hlen := congrArg List.length heq
  rw [← hp] at hlen
  have h10 : ("_merge.obj".toList).length = 10 := by decide
  by_cases h : 4 ≤ name.length
  · simp only [h, if_true, List.length_append, List.length_take, h10] at hlen
    omega
  · simp only [h, if_false, List.length_append, h10] at hlen
    omega

theorem readFile_writeFile_self (w : World) (path : CppString) (content : List Char) :
    (w.writeFile path content).readFile path = some content := by
  simp [World.writeFile, World.readFile, World.fileOf]

/-- Writing through one path leaves every file that the path does not denote as it was. -/
theorem readFile_writeFile_of_ne (w : World) (path other : CppString) (content : List Char)
    (h : w.fileOf path ≠ w.fileOf other) :
    (w.writeFile path content).readFile other = w.readFile other := by
  have hfile : (w.writeFile path content).fileOf other = w.fileOf other := rfl
  unfold World.readFile
  rw [hfile]
  unfold World.writeFile
  generalize w.fileOf path = a at h
  generalize w.fileOf other = b at h
  have h1 : (a == b) = false := by simpa using h
  simp only [List.find?_cons, h1]
  congr 1
  induction w.files with
  | nil => rfl
  | cons e es ih =>
    by_cases he : e.1 = a
    · have h2 : (e.1 == b) = false := by
        rw [he]
        exact h1
      have h3 : (!(e.1 == a)) = false := by simp [he]
      rw [List.filter_cons, h3, List.find?_cons, h2]
      exact ih
    · have h3 : (!(e.1 == a)) = true := by simp [he]
      rw [List.filter_cons, h3]
      simp only [if_true, List.find?_cons]
      rw [ih]

/-- A string without NUL is its own C string. -/
theorem c_str_of_not_mem (s : CppString) (h : NUL ∉ s) : c_str s = s := by
  unfold c_str
  rw [List.takeWhile_eq_self_iff]
  intro c hc
  have : c ≠ NUL := fun hcn => h (hcn ▸ hc)
  simpa using this

/-- Without links a path denotes the file named by its C string. -/
theorem fileOf_of_no_links (w : World) (path : CppString) (h : w.links = []) :
    w.fileOf path = c_str path := by
  unfold World.fileOf
  rw [h]
  rfl

/-! ### The face loops of `read_mesh` -/

theorem fill_face_eq_none_iff (f : List Nat) (counter : Nat) (fv_index : Vec3I)
    (hc : counter ≤ 3) :
    VolumeObject.fill_face f counter fv_index = none ↔ 3 < counter + f.length := by
  induction f generalizing counter fv_index with
  | nil => simp [VolumeObject.fill_face]; omega
  | cons idx rest ih =>
    unfold VolumeObject.fill_face
    by_cases h : counter ≥ 3
    · simp [h]; omega
    · simp only [h, if_false]
      rw [ih (counter + 1) _ (by omega)]
      simp only [List.length_cons]
      omega

theorem fill_face_zero_eq_none_iff (f : List Nat) (fv_index : Vec3I) :
    VolumeObject.fill_face f 0 fv_index = none ↔ 3 < f.length := by
  rw [fill_face_eq_none_iff f 0 fv_index (by omega)]
  simp

/-- The face loop leaves at the first face of more than three vertices, having
pushed one entry per face before it and none for it. -/
theorem fill_triangles_error (faces : List (List Nat)) (fv_index : Vec3I)
    (triangles : List Vec3I) (h : ∃ f ∈ faces, 3 < f.length) :
    ∃ before f after pushed, faces = before ++ f :: after ∧ (∀ g ∈ before, g.length ≤ 3)
      ∧ 3 < f.length
      ∧ VolumeObject.fill_triangles faces fv_index triangles = .error (triangles ++ pushed)
      ∧ pushed.length = before.length := by
  induction faces generalizing fv_index triangles with
  | nil => simp at h
  | cons f fs ih =>
    by_cases hf : 3 < f.length
    · refine ⟨[], f, fs, [], rfl, by simp, hf, ?_, rfl⟩
      unfold VolumeObject.fill_triangles
      rw [(fill_face_zero_eq_none_iff f fv_index).mpr hf]
      simp
    · have hne : VolumeObject.fill_face f 0 fv_index ≠ none := by
        rw [Ne, fill_face_zero_eq_none_iff]
        exact hf
      obtain ⟨fv, hfv⟩ := Option.ne_none_iff_exists'.mp hne
      have h2 : ∃ g ∈ fs, 3 < g.length := by
        obtain ⟨g, hg, hl⟩ := h
        rcases List.mem_cons.mp hg with rfl | hg
        · exact absurd hl hf
        · exact ⟨g, hg, hl⟩
      obtain ⟨before, g, after, pushed, hsplit, hbefore, hg, hres, hlen⟩ :=
        ih fv (triangles ++ [fv]) h2
      refine ⟨f :: before, g, after, fv :: pushed, by simp [hsplit], ?_, hg, ?_, by simp [hlen]⟩
      · intro k hk
        rcases List.mem_cons.mp hk with rfl | hk
        · omega
        · exact hbefore k hk
      · unfold VolumeObject.fill_triangles
        simp [hfv, hres]

theorem fill_face_triangle (f : List Nat) (fv_index : Vec3I) (h3 : f.length = 3)
    (hr : ∀ i ∈ f, i < INDEX32_MOD) :
    VolumeObject.fill_face f 0 fv_index = some (face_triple f) := by
  match f, h3 with
  | [a, b, c], _ =>
    have ha : a % INDEX32_MOD = a := Nat.mod_eq_of_lt (hr a (by simp))
    have hb : b % INDEX32_MOD = b := Nat.mod_eq_of_lt (hr b (by simp))
    have hc : c % INDEX32_MOD = c := Nat.mod_eq_of_lt (hr c (by simp))
    simp [VolumeObject.fill_face, Vec3.set, face_triple, ha, hb, hc]

/-- On a pure triangle mesh the face loop appends the index triple of each face. -/
theorem fill_triangles_triangles (faces : List (List Nat)) (fv_index : Vec3I)
    (triangles : List Vec3I) (h3 : ∀ f ∈ faces, f.length = 3)
    (hr : ∀ f ∈ faces, ∀ i ∈ f, i < INDEX32_MOD) :
    VolumeObject.fill_triangles faces fv_index triangles
      = .ok (triangles ++ faces.map face_triple) := by
  induction faces generalizing fv_index triangles with
  | nil => simp [VolumeObject.fill_triangles]
  | cons f fs ih =>
    unfold VolumeObject.fill_triangles
    rw [fill_face_triangle f fv_index (h3 f (List.mem_cons_self _ _))
      (hr f (List.mem_cons_self _ _))]
    simp only
    rw [ih _ _ (fun g hg => h3 g (List.mem_cons_of_mem _ hg))
      (fun g hg => hr g (List.mem_cons_of_mem _ hg))]
    simp

/-! ### `read_mesh` and the constructors -/

/-- Once the reader has delivered a mesh with a vertex, `read_mesh` is decided by the face loop. -/
theorem read_mesh_of_loaded (env : Env R F V) (st : State R F V) (m : TriMesh R)
    (hread : env.read_mesh_file st.self.mesh_name = some m) (hv : m.vertices ≠ []) :
    VolumeObject.read_mesh env st =
      match VolumeObject.fill_triangles m.faces env.fv_index_init st.self.triangles with
      | .error triangles =>
          .exit (-1)
            { self :=
                { st.self with
                  mesh := m,
                  points := VolumeObject.fill_points env.toFloat m.vertices st.self.points,
                  triangles := triangles },
              world := st.world.cerr VolumeObject.not_triangle_message }
      | .ok triangles =>
          .ok
            { st with
              self :=
                { st.self with
                  mesh := m,
                  points := VolumeObject.fill_points env.toFloat m.vertices st.self.points,
                  triangles := triangles } } := by
  unfold VolumeObject.read_mesh
  rw [hread]
  cases hvs : m.vertices with
  | nil => exact absurd hvs hv
  | cons v0 vs => simp only [hvs]

/-- An unreadable source: `read_mesh` leaves through `exit(-1)` with the object untouched. -/
theorem read_mesh_of_unreadable (env : Env R F V) (st : State R F V)
    (hread : env.read_mesh_file st.self.mesh_name = none) :
    VolumeObject.read_mesh env st =
      .exit (-1) { st with world := st.world.cerr (VolumeObject.read_error_message st.self.mesh_name) } := by
  unfold VolumeObject.read_mesh
  rw [hread]

/-- A normal return of `read_mesh` leaves the name and the grid pointer as they were. -/
theorem read_mesh_ok_frame (env : Env R F V) (st st1 : State R F V)
    (h : VolumeObject.read_mesh env st = .ok st1) :
    st1.self.mesh_name = st.self.mesh_name ∧ st1.self.grid = st.self.grid
      ∧ st1.world = st.world := by
  unfold VolumeObject.read_mesh at h
  split at h
  · exact absurd h (by simp)
  · split at h
    · exact absurd h (by simp)
    · simp only at h
      split at h
      · exact absurd h (by simp)
      · injection h with h
        subst h
        exact ⟨rfl, rfl, rfl⟩

/-- A constructed object carries the given name and a grid, and the world is as before. -/
theorem constructor_ok_fields (env : Env R F V) (name : CppString) (w : World)
    (st : State R F V) (h : VolumeObject.VolumeObject_string env name w = .ok st) :
    st.self.mesh_name = name ∧ (∃ g, st.self.grid = some g) ∧ st.world = w := by
  unfold VolumeObject.VolumeObject_string VolumeObject.initial_volume at h
  simp only at h
  split at h
  · rename_i st1 hst1
    obtain ⟨hn, _, hw⟩ := read_mesh_ok_frame env _ st1 hst1
    injection h with h
    subst h
    exact ⟨hn, ⟨_, rfl⟩, hw⟩
  · rename_i hne
    exact absurd h (hne st)

/-- A failing `read_mesh` makes the constructor fail in the same state. -/
theorem constructor_of_read_mesh_exit (env : Env R F V) (name : CppString) (w : World)
    (code : Int) (st : State R F V)
    (h : VolumeObject.read_mesh env
      { self := { (VolumeObject.fresh : VolumeObject R F V) with mesh_name := name }, world := w }
        = .exit code st) :
    VolumeObject.VolumeObject_string env name w = .exit code st := by
  unfold VolumeObject.VolumeObject_string VolumeObject.initial_volume
  simp only [h]

/-- The face loop has no check for a face of fewer than three vertices: on the
mesh `twoFaceMesh`, which no OpenMesh reader delivers, `read_mesh` returns
normally. -/
theorem read_mesh_two_vertex_face :
    (VolumeObject.read_mesh sampleEnv
        { self := { VolumeObject.fresh with mesh_name := "two.obj".toList },
          world := emptyWorld }).exited = none := by
  decide

/-! ### The text of the mesh file -/

theorem splitOn_append_sep (c : Char) (l rest : List Char) (h : c ∉ l) :
    (l ++ c :: rest).splitOn c = l :: rest.splitOn c := by
  unfold List.splitOn
  apply List.splitOnP_first
  · intro x hx hxc
    have : x = c := by simpa using hxc
    exact h (this ▸ hx)
  · simp

theorem header_eq (r : Extraction F) :
    VolumeObject.header r = ((header_lines r).map (fun l => l ++ endl)).flatten := by
  have h1 : "#output from volume grid\n#author: Bo Wu\n#vertices: ".toList
      = "#output from volume grid".toList ++ endl ++ ("#author: Bo Wu".toList ++ endl)
        ++ "#vertices: ".toList := by decide
  have h2 : "\n#quad: ".toList = endl ++ "#quad: ".toList := by decide
  have h3 : "\n#tris: ".toList = endl ++ "#tris: ".toList := by decide
  unfold VolumeObject.header header_lines
  rw [h1, h2, h3]
  simp only [List.map_cons, List.map_nil, List.flatten_cons, List.flatten_nil, List.append_assoc,
    List.append_nil]

theorem vertex_line_eq (fmt : F → List Char) (p : Vec3 F) :
    VolumeObject.vertex_line fmt p = vertex_body fmt p ++ endl := by
  simp [VolumeObject.vertex_line, vertex_body, Vec3.get]

theorem face_line_eq (f : Vec4I) : VolumeObject.face_line f = face_body f ++ endl := by
  simp [VolumeObject.face_line, face_body, Vec4I.get]

theorem digitChar_isDigit (d : Nat) (h : d < 10) : (Nat.digitChar d).isDigit = true := by
  interval_cases d <;> decide

theorem toDigitsCore_isDigit (fuel n : Nat) (acc : List Char) (h : ∀ c ∈ acc, c.isDigit = true) :
    ∀ c ∈ Nat.toDigitsCore 10 fuel n acc, c.isDigit = true := by
  induction fuel generalizing n acc with
  | zero => simpa [Nat.toDigitsCore] using h
  | succ fuel ih =>
    have hd : ∀ c ∈ Nat.digitChar (n % 10) :: acc, c.isDigit = true := by
      intro c hc
      rcases List.mem_cons.mp hc with rfl | hc
      · exact digitChar_isDigit _ (Nat.mod_lt _ (by omega))
      · exact h c hc
    unfold Nat.toDigitsCore
    simp only
    split
    · exact hd
    · exact ih _ _ hd

theorem toDigitsCore_ne_nil (fuel n : Nat) (acc : List Char) (h : acc ≠ []) :
    Nat.toDigitsCore 10 fuel n acc ≠ [] := by
  induction fuel generalizing n acc with
  | zero => simpa [Nat.toDigitsCore] using h
  | succ fuel ih =>
    unfold Nat.toDigitsCore
    simp only
    split
    · simp
    · exact ih _ _ (by simp)

theorem dec_isDigit (n : Nat) : ∀ c ∈ dec n, c.isDigit = true :=
  toDigitsCore_isDigit _ _ _ (by simp)

theorem dec_ne_nil (n : Nat) : dec n ≠ [] := by
  unfold dec Nat.toDigits Nat.toDigitsCore
  simp only
  split
  · simp
  · exact toDigitsCore_ne_nil _ _ _ (by simp)

theorem lines_append_endl (l rest : List Char) (h : '\n' ∉ l) :
    lines (l ++ endl ++ rest) = l :: lines rest := by
  unfold lines endl
  rw [List.append_assoc]
  exact splitOn_append_sep _ l rest h

theorem lines_flatten (ls : List (List Char)) (rest : List Char) (h : ∀ l ∈ ls, '\n' ∉ l) :
    lines ((ls.map (fun l => l ++ endl)).flatten ++ rest) = ls ++ lines rest := by
  induction ls with
  | nil => simp
  | cons l ls ih =>
    simp only [List.map_cons, List.flatten_cons, List.append_assoc, List.cons_append]
    rw [← List.append_assoc l endl, lines_append_endl l _ (h l (List.mem_cons_self _ _))]
    rw [ih (fun k hk => h k (List.mem_cons_of_mem _ hk))]

theorem not_mem_dec_of_not_isDigit (c : Char) (hc : c.isDigit = false) (n : Nat) : c ∉ dec n := by
  intro h
  have := dec_isDigit n c h
  rw [hc] at this
  exact absurd this (by simp)

theorem newline_not_mem_vertex_body (fmt : F → List Char) (hfmt : ∀ x, '\n' ∉ fmt x)
    (p : Vec3 F) : '\n' ∉ vertex_body fmt p := by
  have hv : '\n' ∉ "v ".toList := by decide
  have hs : '\n' ∉ " ".toList := by decide
  simp only [vertex_body, List.mem_append, not_or]
  exact ⟨hv, ⟨hfmt _, hs⟩, ⟨hfmt _, hs⟩, hfmt _, hs⟩

theorem newline_not_mem_face_body (f : Vec4I) : '\n' ∉ face_body f := by
  have hv : '\n' ∉ "f ".toList := by decide
  have hs : '\n' ∉ " ".toList := by decide
  have hd : ∀ n, '\n' ∉ dec n := not_mem_dec_of_not_isDigit _ (by decide)
  simp only [face_body, List.mem_append, not_or]
  exact ⟨hv, ⟨hd _, hs⟩, ⟨hd _, hs⟩, ⟨hd _, hs⟩, hd _, hs⟩

theorem newline_not_mem_header_lines (r : Extraction F) : ∀ l ∈ header_lines r, '\n' ∉ l := by
  have hd : ∀ n, '\n' ∉ dec n := not_mem_dec_of_not_isDigit _ (by decide)
  have h1 : '\n' ∉ "#output from volume grid".toList := by decide
  have h2 : '\n' ∉ "#author: Bo Wu".toList := by decide
  have h3 : '\n' ∉ "#vertices: ".toList := by decide
  have h4 : '\n' ∉ "#quad: ".toList := by decide
  have h5 : '\n' ∉ "#tris: ".toList := by decide
  intro l hl
  simp only [header_lines, List.mem_cons, List.mem_singleton, List.not_mem_nil, or_false] at hl
  rcases hl with rfl | rfl | rfl | rfl | rfl
  · exact h1
  · exact h2
  · simp only [List.mem_append, not_or]; exact ⟨h3, hd _⟩
  · simp only [List.mem_append, not_or]; exact ⟨h4, hd _⟩
  · simp only [List.mem_append, not_or]; exact ⟨h5, hd _⟩

/-- The lines of the mesh file: the header, one line per point, an empty line,
one line per quad, and the empty piece after the last line feed. -/
theorem lines_mesh_text (fmt : F → List Char) (hfmt : ∀ x, '\n' ∉ fmt x) (r : Extraction F) :
    lines (VolumeObject.mesh_text fmt r)
      = header_lines r ++ (r.output_points.map (vertex_body fmt)
          ++ ([] :: (r.output_quad.map face_body ++ [[]]))) := by
  have hv : (r.output_points.map (VolumeObject.vertex_line fmt)).flatten
      = ((r.output_points.map (vertex_body fmt)).map (fun l => l ++ endl)).flatten := by
    congr 1
    rw [List.map_map]
    apply List.map_congr_left
    intro p _
    exact vertex_line_eq fmt p
  have hq : (r.output_quad.map VolumeObject.face_line).flatten
      = ((r.output_quad.map face_body).map (fun l => l ++ endl)).flatten ++ [] := by
    rw [List.append_nil]
    congr 1
    rw [List.map_map]
    apply List.map_congr_left
    intro f _
    exact face_line_eq f
  unfold VolumeObject.mesh_text
  rw [header_eq, hv, hq, List.append_assoc, List.append_assoc,
    lines_flatten _ _ (newline_not_mem_header_lines r),
    lines_flatten _ _ (by
      intro l hl
      obtain ⟨p, _, rfl⟩ := List.mem_map.mp hl
      exact newline_not_mem_vertex_body fmt hfmt p)]
  have hblank : lines (endl ++ (((r.output_quad.map face_body).map (fun l => l ++ endl)).flatten ++ []))
      = [] :: lines (((r.output_quad.map face_body).map (fun l => l ++ endl)).flatten ++ []) := by
    have := lines_append_endl [] (((r.output_quad.map face_body).map (fun l => l ++ endl)).flatten ++ [])
      (by simp)
    simpa using this
  rw [hblank, lines_flatten _ _ (by
      intro l hl
      obtain ⟨f, _, rfl⟩ := List.mem_map.mp hl
      exact newline_not_mem_face_body f)]
  rfl

theorem isVertexLine_vertex_body (fmt : F → List Char) (p : Vec3 F) :
    isVertexLine (vertex_body fmt p) = true := rfl

theorem isFaceLine_vertex_body (fmt : F → List Char) (p : Vec3 F) :
    isFaceLine (vertex_body fmt p) = false := rfl

theorem isVertexLine_face_body (f : Vec4I) : isVertexLine (face_body f) = false := rfl

theorem isFaceLine_face_body (f : Vec4I) : isFaceLine (face_body f) = true := rfl

theorem isVertexLine_header_lines (r : Extraction F) :
    ∀ l ∈ header_lines r, isVertexLine l = false := by
  intro l hl
  simp only [header_lines, List.mem_cons, List.mem_singleton, List.not_mem_nil, or_false] at hl
  rcases hl with rfl | rfl | rfl | rfl | rfl <;> rfl

theorem isFaceLine_header_lines (r : Extraction F) :
    ∀ l ∈ header_lines r, isFaceLine l = false := by
  intro l hl
  simp only [header_lines, List.mem_cons, List.mem_singleton, List.not_mem_nil, or_false] at hl
  rcases hl with rfl | rfl | rfl | rfl | rfl <;> rfl

/-- The vertex lines of the mesh file are the lines of the points, in order. -/
theorem vertex_lines_mesh_text (fmt : F → List Char) (hfmt : ∀ x, '\n' ∉ fmt x)
    (r : Extraction F) :
    (lines (VolumeObject.mesh_text fmt r)).filter isVertexLine
      = r.output_points.map (vertex_body fmt) := by
  rw [lines_mesh_text fmt hfmt r, List.filter_append, List.filter_append, List.filter_cons,
    List.filter_append]
  have h1 : (header_lines r).filter isVertexLine = [] :=
    List.filter_eq_nil_iff.mpr (fun l hl => by simp [isVertexLine_header_lines r l hl])
  have h2 : (r.output_points.map (vertex_body fmt)).filter isVertexLine
      = r.output_points.map (vertex_body fmt) :=
    List.filter_eq_self.mpr (fun l hl => by
      obtain ⟨p, _, rfl⟩ := List.mem_map.mp hl
      exact isVertexLine_vertex_body fmt p)
  have h3 : (r.output_quad.map face_body).filter isVertexLine = [] :=
    List.filter_eq_nil_iff.mpr (fun l hl => by
      obtain ⟨f, _, rfl⟩ := List.mem_map.mp hl
      simp [isVertexLine_face_body f])
  have h4 : isVertexLine [] = false := rfl
  have h5 : [[]].filter isVertexLine = ([] : List (List Char)) := rfl
  rw [h1, h2, h3, h4, h5]
  simp

/-- The face lines of the mesh file are the lines of the quads, in order. -/
theorem face_lines_mesh_text (fmt : F → List Char) (hfmt : ∀ x, '\n' ∉ fmt x)
    (r : Extraction F) :
    (lines (VolumeObject.mesh_text fmt r)).filter isFaceLine = r.output_quad.map face_body := by
  rw [lines_mesh_text fmt hfmt r, List.filter_append, List.filter_append, List.filter_cons,
    List.filter_append]
  have h1 : (header_lines r).filter isFaceLine = [] :=
    List.filter_eq_nil_iff.mpr (fun l hl => by simp [isFaceLine_header_lines r l hl])
  have h2 : (r.output_points.map (vertex_body fmt)).filter isFaceLine = [] :=
    List.filter_eq_nil_iff.mpr (fun l hl => by
      obtain ⟨p, _, rfl⟩ := List.mem_map.mp hl
      simp [isFaceLine_vertex_body fmt p])
  have h3 : (r.output_quad.map face_body).filter isFaceLine = r.output_quad.map face_body :=
    List.filter_eq_self.mpr (fun l hl => by
      obtain ⟨f, _, rfl⟩ := List.mem_map.mp hl
      exact isFaceLine_face_body f)
  have h4 : isFaceLine [] = false := rfl
  have h5 : [[]].filter isFaceLine = ([] : List (List Char)) := rfl
  rw [h1, h2, h3, h4, h5]
  simp

/-- The words of a face line: the letter `f` and the four decimal numerals. -/
theorem words_face_body (f : Vec4I) :
    words (face_body f)
      = [ "f".toList, dec ((f.a3 + 1) % INDEX32_MOD), dec ((f.a2 + 1) % INDEX32_MOD),
          dec ((f.a1 + 1) % INDEX32_MOD), dec ((f.a0 + 1) % INDEX32_MOD)] := by
  have hd : ∀ n, ' ' ∉ dec n := not_mem_dec_of_not_isDigit _ (by decide)
  have hshape : face_body f
      = "f".toList ++ ' ' :: (dec ((f.a3 + 1) % INDEX32_MOD) ++ ' ' ::
          (dec ((f.a2 + 1) % INDEX32_MOD) ++ ' ' :: (dec ((f.a1 + 1) % INDEX32_MOD) ++ ' ' ::
            (dec ((f.a0 + 1) % INDEX32_MOD) ++ ' ' :: [])))) := by
    have hf : "f ".toList = "f".toList ++ [ ' '] := by decide
    have hs : " ".toList = [ ' '] := by decide
    unfold face_body
    rw [hf, hs]
    simp only [List.append_assoc, List.singleton_append]
  unfold words
  rw [hshape, splitOn_append_sep _ _ _ (by decide), splitOn_append_sep _ _ _ (hd _),
    splitOn_append_sep _ _ _ (hd _), splitOn_append_sep _ _ _ (hd _),
    splitOn_append_sep _ _ _ (hd _)]
  have hnil : ([] : List Char).splitOn ' ' = [[]] := rfl
  have hne : ∀ n, (!(dec n).isEmpty) = true := by
    intro n
    cases h : dec n with
    | nil => exact absurd h (dec_ne_nil n)
    | cons c cs => rfl
  have hfne : (!("f".toList).isEmpty) = true := by decide
  rw [hnil]
  simp only [List.filter_cons, hne, hfne, if_true, List.filter_nil, List.isEmpty_nil,
    Bool.not_true, Bool.false_eq_true, if_false]

theorem newline_not_mem_fmtInt (i : Int) : '\n' ∉ fmtInt i := by
  have hd : ∀ n, '\n' ∉ dec n := not_mem_dec_of_not_isDigit _ (by decide)
  unfold fmtInt
  split
  · simp only [List.mem_cons, not_or]
    exact ⟨by decide, hd _⟩
  · exact hd _

/-- The increment `f(i) + 1` is 32-bit: on the largest 32-bit value it wraps to zero. -/
theorem words_face_body_wraps :
    words (face_body ⟨0, 1, 2, 4294967295⟩)
      = [ "f".toList, "0".toList, "3".toList, "2".toList, "1".toList] := by
  decide

/-! ### `save_as_mesh` -/

/-- With a grid at hand and the output name computed, `save_as_mesh` is decided
by whether the stream opens. -/
theorem save_as_mesh_eq (env : Env R F V) (st : State R F V) (g : Grid V) (path : CppString)
    (hg : st.self.grid = some g)
    (hp : VolumeObject.output_name st.self.mesh_name = .ok path) :
    VolumeObject.save_as_mesh env st =
      if st.world.canWrite path then
        .ok { st with
              world := st.world.writeFile path
                (VolumeObject.mesh_text env.fmt (env.volumeToMesh g 0)) }
      else .ok st := by
  unfold VolumeObject.save_as_mesh
  rw [hg]
  simp only [hp]

end Basics

/-! ## The claims of the specification -/

section Claims

variable {R F V : Type}

/-- C2 (the code at the failing inputs): for a file name of fewer than four
characters, the empty name included, `write_grid` does not open `name.vdb`:
`name.length() - 4` wraps around, `substr` throws `std::out_of_range`, and the
exception escapes before any path is computed. -/
theorem write_grid_throws_on_short_name (env : Env R F V) (name : CppString)
    (st : State R F V) (h : name.length < 4) :
    VolumeObject.write_grid_name name = .error .out_of_range
      ∧ VolumeObject.write_grid env name st = .threw .out_of_range := by
  have hn := write_grid_name_short name h
  refine ⟨hn, ?_⟩
  unfold VolumeObject.write_grid
  rw [hn]

/-- Witness of C2 on the name `a` and on the empty name. -/
theorem write_grid_throws_on_short_name_witness :
    ("a".toList.length < 4
      ∧ VolumeObject.write_grid sampleEnv "a".toList ⟨sampleObject, emptyWorld⟩
          = .threw .out_of_range)
    ∧ (([] : CppString).length < 4
      ∧ VolumeObject.write_grid sampleEnv [] ⟨sampleObject, emptyWorld⟩
          = .threw .out_of_range) :=
  ⟨⟨by decide,
      (write_grid_throws_on_short_name sampleEnv "a".toList ⟨sampleObject, emptyWorld⟩
        (by decide)).2⟩,
    ⟨by decide,
      (write_grid_throws_on_short_name sampleEnv [] ⟨sampleObject, emptyWorld⟩ (by decide)).2⟩⟩

/-- C4 (as stated, refuted): the output mesh of `sampleObject` cannot be opened
in `lockedWorld`, yet `save_as_mesh` returns normally, in an unchanged state,
instead of failing. -/
theorem save_as_mesh_unopenable_returns_normally :
    VolumeObject.output_name sampleObject.mesh_name = .ok "tri_merge.obj".toList
      ∧ lockedWorld.canWrite "tri_merge.obj".toList = false
      ∧ VolumeObject.save_as_mesh sampleEnv ⟨sampleObject, lockedWorld⟩
          = .ok ⟨sampleObject, lockedWorld⟩ :=
  ⟨rfl, by decide, rfl⟩

/-- C4 (amended): if the output mesh file cannot be opened, `save_as_mesh`
writes nothing, neither a vertex nor a face line nor anything else (files and
standard streams are as before), and returns normally without an error. -/
theorem save_as_mesh_unopenable_writes_nothing (env : Env R F V) (st : State R F V)
    (g : Grid V) (path : CppString) (hg : st.self.grid = some g)
    (hp : VolumeObject.output_name st.self.mesh_name = .ok path)
    (hw : st.world.canWrite path = false) :
    VolumeObject.save_as_mesh env st = .ok st := by
  rw [save_as_mesh_eq env st g path hg hp, hw]
  rfl

/-- Witness of C4 (amended) on `sampleObject` in `lockedWorld`. -/
theorem save_as_mesh_unopenable_writes_nothing_witness :
    VolumeObject.save_as_mesh sampleEnv ⟨sampleObject, lockedWorld⟩
      = .ok ⟨sampleObject, lockedWorld⟩ :=
  save_as_mesh_unopenable_writes_nothing sampleEnv ⟨sampleObject, lockedWorld⟩ sampleGrid
    "tri_merge.obj".toList rfl rfl (by decide)

/-- C3: when the mesh file opens (the stream output of a float containing no
line feed, and no quad index being the largest 32-bit value `2 ^ 32 - 1`,
which is not the index of a point), the face lines of the written file, taken
in order and split into words, are exactly one per quad of the extractor's
quad list, in the order of that list, each made of `f` followed by the
decimal numerals of `q3 + 1`, `q2 + 1`, `q1 + 1`, `q0 + 1`. -/
theorem save_as_mesh_face_lines (env : Env R F V) (st : State R F V) (g : Grid V)
    (path : CppString) (hg : st.self.grid = some g)
    (hp : VolumeObject.output_name st.self.mesh_name = .ok path)
    (hw : st.world.canWrite path = true) (hfmt : ∀ x, '\n' ∉ env.fmt x)
    (hidx : ∀ q ∈ (env.volumeToMesh g 0).output_quad,
      q.a0 + 1 < INDEX32_MOD ∧ q.a1 + 1 < INDEX32_MOD
        ∧ q.a2 + 1 < INDEX32_MOD ∧ q.a3 + 1 < INDEX32_MOD) :
    ∃ st1 content, VolumeObject.save_as_mesh env st = .ok st1
      ∧ st1.world.readFile path = some content
      ∧ ((lines content).filter isFaceLine).map words
          = (env.volumeToMesh g 0).output_quad.map (fun q =>
              [ "f".toList, dec (q.a3 + 1), dec (q.a2 + 1), dec (q.a1 + 1), dec (q.a0 + 1)]) := by
  refine ⟨{ st with
        world := st.world.writeFile path
          (VolumeObject.mesh_text env.fmt (env.volumeToMesh g 0)) },
      VolumeObject.mesh_text env.fmt (env.volumeToMesh g 0), ?_,
      readFile_writeFile_self _ path _, ?_⟩
  · rw [save_as_mesh_eq env st g path hg hp, if_pos hw]
  · rw [face_lines_mesh_text env.fmt hfmt, List.map_map]
    apply List.map_congr_left
    intro q hq
    obtain ⟨h0, h1, h2, h3⟩ := hidx q hq
    simp only [Function.comp_apply, words_face_body, Nat.mod_eq_of_lt h0, Nat.mod_eq_of_lt h1,
      Nat.mod_eq_of_lt h2, Nat.mod_eq_of_lt h3]

/-- Witness of C3 on `sampleObject`, whose extraction has the quads
`(0, 1, 2, 3)` and `(3, 2, 1, 0)`. -/
theorem save_as_mesh_face_lines_witness :
    ∃ st1 content, VolumeObject.save_as_mesh sampleEnv ⟨sampleObject, emptyWorld⟩ = .ok st1
      ∧ st1.world.readFile "tri_merge.obj".toList = some content
      ∧ ((lines content).filter isFaceLine).map words
          = sampleExtraction.output_quad.map (fun q =>
              [ "f".toList, dec (q.a3 + 1), dec (q.a2 + 1), dec (q.a1 + 1), dec (q.a0 + 1)]) :=
  save_as_mesh_face_lines sampleEnv ⟨sampleObject, emptyWorld⟩ sampleGrid "tri_merge.obj".toList
    rfl rfl (by decide) newline_not_mem_fmtInt (by decide)

/-- C5: when the mesh file opens (the stream output of a float containing no
line feed), the written file has exactly one `v` line per output point, in
emission order, each `v x y z`; as many `f` lines as there are quads; every
`v` line before every `f` line; and nothing of it depends on the contents of
the triangle list: an extractor that yields the same points, the same quads
and as many triangles leads to the very same final state. -/
theorem save_as_mesh_file_layout (env : Env R F V) (st : State R F V) (g : Grid V)
    (path : CppString) (hg : st.self.grid = some g)
    (hp : VolumeObject.output_name st.self.mesh_name = .ok path)
    (hw : st.world.canWrite path = true) (hfmt : ∀ x, '\n' ∉ env.fmt x) :
    ∃ st1 content, VolumeObject.save_as_mesh env st = .ok st1
      ∧ st1.world.readFile path = some content
      ∧ (lines content).filter isVertexLine
          = (env.volumeToMesh g 0).output_points.map (fun p =>
              "v ".toList ++ env.fmt p.x ++ " ".toList ++ env.fmt p.y ++ " ".toList
                ++ env.fmt p.z ++ " ".toList)
      ∧ ((lines content).filter isFaceLine).length = (env.volumeToMesh g 0).output_quad.length
      ∧ (∃ before after, lines content = before ++ after
          ∧ (∀ l ∈ before, isFaceLine l = false) ∧ (∀ l ∈ after, isVertexLine l = false))
      ∧ ∀ env2 : Env R F V, env2.fmt = env.fmt →
          (env2.volumeToMesh g 0).output_points = (env.volumeToMesh g 0).output_points →
          (env2.volumeToMesh g 0).output_quad = (env.volumeToMesh g 0).output_quad →
          (env2.volumeToMesh g 0).output_tris.length
            = (env.volumeToMesh g 0).output_tris.length →
          VolumeObject.save_as_mesh env2 st = .ok st1 := by
  refine ⟨{ st with
        world := st.world.writeFile path
          (VolumeObject.mesh_text env.fmt (env.volumeToMesh g 0)) },
      VolumeObject.mesh_text env.fmt (env.volumeToMesh g 0), ?_,
      readFile_writeFile_self _ path _, ?_, ?_, ?_, ?_⟩
  · rw [save_as_mesh_eq env st g path hg hp, if_pos hw]
  · rw [vertex_lines_mesh_text env.fmt hfmt]
    apply List.map_congr_left
    intro p _
    simp only [vertex_body, List.append_assoc]
  · rw [face_lines_mesh_text env.fmt hfmt, List.length_map]
  · refine ⟨header_lines (env.volumeToMesh g 0)
        ++ (env.volumeToMesh g 0).output_points.map (vertex_body env.fmt),
      [] :: ((env.volumeToMesh g 0).output_quad.map face_body ++ [[]]), ?_, ?_, ?_⟩
    · rw [lines_mesh_text env.fmt hfmt, List.append_assoc]
    · intro l hl
      rcases List.mem_append.mp hl with hl | hl
      · exact isFaceLine_header_lines _ l hl
      · obtain ⟨p, _, rfl⟩ := List.mem_map.mp hl
        exact isFaceLine_vertex_body env.fmt p
    · intro l hl
      rcases List.mem_cons.mp hl with rfl | hl
      · rfl
      · rcases List.mem_append.mp hl with hl | hl
        · obtain ⟨f, _, rfl⟩ := List.mem_map.mp hl
          exact isVertexLine_face_body f
        · rw [List.mem_singleton.mp hl]
          rfl
  · intro env2 hf hpts hquad htris
    rw [save_as_mesh_eq env2 st g path hg hp, if_pos hw]
    have htext : VolumeObject.mesh_text env2.fmt (env2.volumeToMesh g 0)
        = VolumeObject.mesh_text env.fmt (env.volumeToMesh g 0) := by
      unfold VolumeObject.mesh_text VolumeObject.header
      rw [hf, hpts, hquad, htris]
    rw [htext]

/-- Witness of C5 on `sampleObject`, whose extraction has four points, one
triangle and two quads. -/
theorem save_as_mesh_file_layout_witness :
    ∃ st1 content, VolumeObject.save_as_mesh sampleEnv ⟨sampleObject, emptyWorld⟩ = .ok st1
      ∧ st1.world.readFile "tri_merge.obj".toList = some content
      ∧ (lines content).filter isVertexLine
          = sampleExtraction.output_points.map (fun p =>
              "v ".toList ++ fmtInt p.x ++ " ".toList ++ fmtInt p.y ++ " ".toList
                ++ fmtInt p.z ++ " ".toList)
      ∧ ((lines content).filter isFaceLine).length = sampleExtraction.output_quad.length
      ∧ (∃ before after, lines content = before ++ after
          ∧ (∀ l ∈ before, isFaceLine l = false) ∧ (∀ l ∈ after, isVertexLine l = false))
      ∧ ∀ env2 : Env Int Int Unit, env2.fmt = fmtInt →
          (env2.volumeToMesh sampleGrid 0).output_points = sampleExtraction.output_points →
          (env2.volumeToMesh sampleGrid 0).output_quad = sampleExtraction.output_quad →
          (env2.volumeToMesh sampleGrid 0).output_tris.length
            = sampleExtraction.output_tris.length →
          VolumeObject.save_as_mesh env2 ⟨sampleObject, emptyWorld⟩ = .ok st1 :=
  save_as_mesh_file_layout sampleEnv ⟨sampleObject, emptyWorld⟩ sampleGrid "tri_merge.obj".toList
    rfl rfl (by decide) newline_not_mem_fmtInt

/-- C6: when the mesh source cannot be read, or the mesh read (with at least
one vertex) contains a face of more than three vertices, `VolumeObject(name)`
leaves through `exit(-1)` in a state whose grid pointer is still null, and it
does so in the same way whatever the level-set builder is: the builder is not
invoked and no grid is produced. -/
theorem constructor_fails_before_grid (env : Env R F V) (name : CppString) (w : World)
    (h : env.read_mesh_file name = none
      ∨ ∃ m, env.read_mesh_file name = some m ∧ m.vertices ≠ [] ∧ ∃ f ∈ m.faces, 3 < f.length) :
    ∃ st, VolumeObject.VolumeObject_string env name w = .exit (-1) st
      ∧ st.self.grid = none
      ∧ ∀ builder, VolumeObject.VolumeObject_string { env with meshToLevelSet := builder } name w
          = .exit (-1) st := by
  have key : ∃ st, VolumeObject.read_mesh env
      { self := { (VolumeObject.fresh : VolumeObject R F V) with mesh_name := name }, world := w }
        = .exit (-1) st ∧ st.self.grid = none := by
    rcases h with h | ⟨m, hm, hv, hf⟩
    · exact ⟨_, read_mesh_of_unreadable env _ h, rfl⟩
    · have hrm := read_mesh_of_loaded env
        { self := { (VolumeObject.fresh : VolumeObject R F V) with mesh_name := name }, world := w }
        m hm hv
      obtain ⟨_, _, _, pushed, _, _, _, hres, _⟩ :=
        fill_triangles_error m.faces env.fv_index_init
          ({ (VolumeObject.fresh : VolumeObject R F V) with mesh_name := name }).triangles hf
      rw [hres] at hrm
      exact ⟨_, hrm, rfl⟩
  obtain ⟨st, hst, hgrid⟩ := key
  refine ⟨st, constructor_of_read_mesh_exit env name w (-1) st hst, hgrid, ?_⟩
  intro builder
  exact constructor_of_read_mesh_exit _ name w (-1) st hst

/-- Witness of C6 on a missing file and on the mesh with a quadrilateral face. -/
theorem constructor_fails_before_grid_witness :
    (sampleEnv.read_mesh_file "missing.obj".toList = none
      ∧ ∃ st, VolumeObject.VolumeObject_string sampleEnv "missing.obj".toList emptyWorld
            = .exit (-1) st
          ∧ st.self.grid = none
          ∧ ∀ builder, VolumeObject.VolumeObject_string
              { sampleEnv with meshToLevelSet := builder } "missing.obj".toList emptyWorld
                = .exit (-1) st)
    ∧ ((∃ f ∈ quadFaceMesh.faces, 3 < f.length)
      ∧ ∃ st, VolumeObject.VolumeObject_string sampleEnv "quad.obj".toList emptyWorld
            = .exit (-1) st
          ∧ st.self.grid = none
          ∧ ∀ builder, VolumeObject.VolumeObject_string
              { sampleEnv with meshToLevelSet := builder } "quad.obj".toList emptyWorld
                = .exit (-1) st) :=
  ⟨⟨by decide,
      constructor_fails_before_grid sampleEnv "missing.obj".toList emptyWorld
        (Or.inl (by decide))⟩,
    ⟨by decide,
      constructor_fails_before_grid sampleEnv "quad.obj".toList emptyWorld
        (Or.inr ⟨quadFaceMesh, by decide, by decide, by decide⟩)⟩⟩

/-- C7: for a readable mesh with at least one vertex whose faces all have
exactly three vertices (the handles being 32-bit representable), `read_mesh`
started from empty `points` and `triangles` returns normally; `points` then
holds the vertex positions in vertex order, each coordinate as loaded and
only converted to the float type, whatever the bounding box is; `triangles`
holds one entry per face, in face order, with the three vertex indices of the
face in iteration order. -/
theorem read_mesh_triangle_mesh (env : Env R F V) (st : State R F V) (m : TriMesh R)
    (hread : env.read_mesh_file st.self.mesh_name = some m) (hv : m.vertices ≠ [])
    (h3 : ∀ f ∈ m.faces, f.length = 3) (hr : ∀ f ∈ m.faces, ∀ i ∈ f, i < INDEX32_MOD)
    (hp : st.self.points = []) (ht : st.self.triangles = []) :
    ∃ st1, VolumeObject.read_mesh env st = .ok st1
      ∧ st1.self.points
          = m.vertices.map (fun p => Vec3.mk (env.toFloat p.x) (env.toFloat p.y) (env.toFloat p.z))
      ∧ st1.self.triangles
          = m.faces.map (fun f => Vec3.mk (f.getD 0 0) (f.getD 1 0) (f.getD 2 0))
      ∧ st1.self.triangles.length = m.faces.length := by
  have hrm := read_mesh_of_loaded env st m hread hv
  rw [fill_triangles_triangles m.faces env.fv_index_init st.self.triangles h3 hr] at hrm
  simp only at hrm
  refine ⟨_, hrm, ?_, ?_, ?_⟩
  · simp [VolumeObject.fill_points, hp, Vec3.get]
  · simp only [ht, List.nil_append]
    rfl
  · simp [ht]

/-- Witness of C7 on the mesh of two triangles. -/
theorem read_mesh_triangle_mesh_witness :
    ∃ st1, VolumeObject.read_mesh sampleEnv
        { self := { VolumeObject.fresh with mesh_name := "tri.obj".toList }, world := emptyWorld }
          = .ok st1
      ∧ st1.self.points
          = twoTriangleMesh.vertices.map (fun p => Vec3.mk (id p.x) (id p.y) (id p.z))
      ∧ st1.self.triangles
          = twoTriangleMesh.faces.map (fun f => Vec3.mk (f.getD 0 0) (f.getD 1 0) (f.getD 2 0))
      ∧ st1.self.triangles.length = twoTriangleMesh.faces.length :=
  read_mesh_triangle_mesh sampleEnv
    { self := { VolumeObject.fresh with mesh_name := "tri.obj".toList }, world := emptyWorld }
    twoTriangleMesh (by decide) (by decide) (by decide) (by decide) rfl rfl

/-- C9: the default constructor always takes the failure branch: whatever the
environment and the world, it writes the message to the error stream and
leaves through `exit(-1)` with the members still empty and the grid pointer
null; neither the mesh reader nor the level-set builder has any influence. -/
theorem default_constructor_always_exits (env : Env R F V) (w : World) :
    VolumeObject.VolumeObject env w
        = .exit (-1) { self := VolumeObject.fresh, world := w.cerr VolumeObject.no_name_message }
      ∧ (VolumeObject.fresh : VolumeObject R F V).grid = none
      ∧ (VolumeObject.fresh : VolumeObject R F V).points = []
      ∧ (VolumeObject.fresh : VolumeObject R F V).triangles = []
      ∧ (VolumeObject.fresh : VolumeObject R F V).mesh = ⟨[], []⟩ :=
  ⟨rfl, rfl, rfl, rfl, rfl⟩

/-- C10 (as stated, refuted): for the mesh name `mesh`, NUL, `.obj` the output
name computed by `save_as_mesh` differs from the mesh name, yet the stream
opens the C string `mesh`, the very file the name denotes: after
`save_as_mesh` the input mesh file holds the output mesh. -/
theorem save_as_mesh_overwrites_input_of_nul_name :
    ∃ st st1 path, VolumeObject.VolumeObject_string nulEnv nulName meshWorld = .ok st
      ∧ VolumeObject.output_name st.self.mesh_name = .ok path
      ∧ path ≠ nulName
      ∧ VolumeObject.save_as_mesh nulEnv st = .ok st1
      ∧ st.world.readFile nulName = some "# input mesh".toList
      ∧ st1.world.readFile nulName = some (VolumeObject.mesh_text fmtInt sampleExtraction)
      ∧ st1.world.readFile nulName ≠ st.world.readFile nulName :=
  ⟨_, _, _, rfl, rfl, by decide, rfl, by decide, by decide, by decide⟩

/-- C10 (amended): for an object constructed by `VolumeObject(name)` from a name
without NUL character, the path that `save_as_mesh` opens is the name without
its last four characters (the whole name when it has fewer than four)
followed by `_merge.obj`; it differs from the name, also as a C string; when
the stream opens, the file of that path receives the mesh text, otherwise
nothing changes; every file that the path does not denote is left as it was,
and so is, in a world without links, the file under the mesh name. -/
theorem save_as_mesh_keeps_input_mesh (env : Env R F V) (name : CppString) (w : World)
    (st : State R F V) (hn : name.length < SIZE_T_MOD) (hnul : NUL ∉ name)
    (hc : VolumeObject.VolumeObject_string env name w = .ok st) :
    ∃ path st1 g, VolumeObject.output_name st.self.mesh_name = .ok path
      ∧ path = (if 4 ≤ name.length then name.take (name.length - 4) else name)
          ++ "_merge.obj".toList
      ∧ path ≠ name
      ∧ c_str path ≠ c_str name
      ∧ st.self.grid = some g
      ∧ VolumeObject.save_as_mesh env st = .ok st1
      ∧ (st.world.canWrite path = true →
          st1.world.readFile path
            = some (VolumeObject.mesh_text env.fmt (env.volumeToMesh g 0)))
      ∧ (st.world.canWrite path = false → st1 = st)
      ∧ (∀ other, st.world.fileOf other ≠ st.world.fileOf path →
          st1.world.readFile other = st.world.readFile other)
      ∧ (st.world.links = [] → st1.world.readFile name = st.world.readFile name) := by
  obtain ⟨hname, ⟨g, hg⟩, _⟩ := constructor_ok_fields env name w st hc
  have hout := output_name_eq name hn
  have hne := output_name_ne name _ hn hout
  have hpnul : NUL ∉ (if 4 ≤ name.length then name.take (name.length - 4) else name)
      ++ "_merge.obj".toList := by
    have hsuffix : NUL ∉ "_merge.obj".toList := by decide
    intro hmem
    rcases List.mem_append.mp hmem with hmem | hmem
    · split at hmem
      · exact hnul (List.mem_of_mem_take hmem)
      · exact hnul hmem
    · exact hsuffix hmem
  generalize (if 4 ≤ name.length then name.take (name.length - 4) else name)
    ++ "_merge.obj".toList = path at hout hne hpnul
  have hcstr : c_str path ≠ c_str name := by
    rw [c_str_of_not_mem path hpnul, c_str_of_not_mem name hnul]
    exact hne
  rw [← hname] at hout
  have hsave := save_as_mesh_eq env st g path hg hout
  by_cases hw : st.world.canWrite path = true
  · rw [if_pos hw] at hsave
    refine ⟨path, _, g, hout, rfl, hne, hcstr, hg, hsave, ?_, ?_, ?_, ?_⟩
    · intro _
      exact readFile_writeFile_self _ path _
    · intro hfalse
      rw [hw] at hfalse
      exact absurd hfalse (by simp)
    · intro other hother
      exact readFile_writeFile_of_ne _ _ _ _ (Ne.symm hother)
    · intro hlinks
      apply readFile_writeFile_of_ne
      rw [fileOf_of_no_links _ _ hlinks, fileOf_of_no_links _ _ hlinks]
      exact hcstr
  · rw [if_neg hw] at hsave
    refine ⟨path, _, g, hout, rfl, hne, hcstr, hg, hsave, ?_, fun _ => rfl, fun _ _ => rfl,
      fun _ => rfl⟩
    intro htrue
    exact absurd htrue hw

/-- Witness of C10 (amended) on the object constructed from `tri.obj` in a
world where that mesh file exists: the output goes to `tri_merge.obj`. -/
theorem save_as_mesh_keeps_input_mesh_witness :
    (meshWorld.readFile "tri.obj".toList = some "# input tri".toList
      ∧ meshWorld.canWrite "tri_merge.obj".toList = true)
    ∧ ∃ path st1 g, VolumeObject.output_name "tri.obj".toList = .ok path
        ∧ path = "tri_merge.obj".toList
        ∧ path ≠ "tri.obj".toList
        ∧ c_str path ≠ c_str "tri.obj".toList
        ∧ sampleObject.grid = some g
        ∧ VolumeObject.save_as_mesh sampleEnv ⟨sampleObject, meshWorld⟩ = .ok st1
        ∧ (meshWorld.canWrite path = true →
            st1.world.readFile path
              = some (VolumeObject.mesh_text fmtInt (sampleEnv.volumeToMesh g 0)))
        ∧ (meshWorld.canWrite path = false → st1 = ⟨sampleObject, meshWorld⟩)
        ∧ (∀ other, meshWorld.fileOf other ≠ meshWorld.fileOf path →
            st1.world.readFile other = meshWorld.readFile other)
        ∧ (meshWorld.links = [] →
            st1.world.readFile "tri.obj".toList = meshWorld.readFile "tri.obj".toList) :=
  ⟨⟨by decide, by decide⟩,
    save_as_mesh_keeps_input_mesh sampleEnv "tri.obj".toList meshWorld
      ⟨sampleObject, meshWorld⟩ (by decide) (by decide) rfl⟩

end Claims

end MergeMesh
